import Mathlib

/-!
Shallow embedding of the project/proposal lifecycle of the freelancer-platform
API (models/Project.js, routes/projects.js, routes/proposals.js).

The state relevant to the lifecycle claims is a single Project aggregate; the
store is modelled as `Option Project` (the document found by `findById` for the
project id under consideration, `none` when the project does not exist).
Mongoose ObjectIds are modelled as `Nat`, dates as `Nat` timestamps.  The
informational fields of a project that no lifecycle operation reads or writes
(title, description, category, skills, timeline, currency) are omitted; all
fields the route handlers touch, and all fields the claims name (client owner,
status, budget bounds, assignedTo, proposals), are kept.

The HTTP layer around the handlers (JWT `protect` middleware, express-validator
body checks, JSON parsing) passes typed, authenticated data into the handler
logic; the embedding starts where the handler's own logic starts.  The
express-validator `notEmpty` checks on the submit route are kept explicitly
(the `Dados inválidos` branch); numeric checks hold by typing.
-/

inductive Role
  | freelancer
  | client
deriving DecidableEq

/-- A user, as far as the lifecycle routes consult it: its `_id` and its
`userType` (models/User.js restricts `userType` to freelancer/client). -/
structure User where
  id : Nat
  userType : Role
deriving DecidableEq

/-- Subdocument status enum of `projectSchema.proposals.status`
(models/Project.js): pending / accepted / rejected, default pending. -/
inductive ProposalStatus
  | pending
  | accepted
  | rejected
deriving DecidableEq

/-- Status enum of `projectSchema.status` (models/Project.js):
open / in_progress / completed / cancelled.  `open` is a Lean keyword, so the
first constructor carries a trailing underscore. -/
inductive ProjectStatus
  | open_
  | in_progress
  | completed
  | cancelled
deriving DecidableEq

/-- A proposal subdocument (models/Project.js, `projectSchema.proposals`):
`_id`, `freelancer` (ObjectId), `proposal` (text), `bid`, `timeline`,
`status`, `createdAt`. -/
structure Proposal where
  id : Nat
  freelancer : Nat
  proposal : String
  bid : Nat
  timeline : String
  status : ProposalStatus
  createdAt : Nat
deriving DecidableEq

/-- The Project aggregate (models/Project.js), restricted to the fields the
lifecycle operations and the claims mention. -/
structure Project where
  client : Nat
  budgetMin : Nat
  budgetMax : Nat
  status : ProjectStatus
  proposals : List Proposal
  assignedTo : Option Nat
deriving DecidableEq

/-- A route handler outcome: HTTP status code plus either a message body,
or the updated project document (the assign route returns the project). -/
inductive Response
  | success (code : Nat) (message : String)
  | projectData (code : Nat) (p : Project)
  | failure (code : Nat) (message : String)
deriving DecidableEq

/-- The spec's typed error kinds (spec section 7). -/
inductive ErrorKind
  | notFound
  | forbidden
  | invalidState
  | conflict
deriving DecidableEq

/-- Spec section 7 mapping from the concrete handler responses to the spec's
typed error kinds: 404 responses are NotFound, 403 responses are Forbidden,
the 400 `not accepting proposals` response is InvalidState, the 400 duplicate
response is Conflict.  Other responses (successes, HTTP-layer validation
failures) carry no kind. -/
def errorKind : Response → Option ErrorKind
  | Response.failure 404 _ => some ErrorKind.notFound
  | Response.failure 403 _ => some ErrorKind.forbidden
  | Response.failure 400 m =>
      if m = "Projeto não está aceitando propostas" then some ErrorKind.invalidState
      else if m = "Você já enviou uma proposta para este projeto" then some ErrorKind.conflict
      else none
  | _ => none

/-- `POST /api/projects/:id/proposals` (routes/projects.js).  In order:
express-validator `notEmpty` checks on `proposal` and `timeline` (the `bid`
numeric check holds by typing); the freelancer role check; `findById`; the
open-status check; the duplicate-freelancer check; then push of a new
subdocument, whose `status` defaults to pending and `createdAt` to now.
`freshId` is the subdocument `_id` mongoose mints. -/
def submitProposal (store : Option Project) (user : User)
    (proposalText : String) (bid : Nat) (timeline : String)
    (freshId : Nat) (now : Nat) : Option Project × Response :=
  if proposalText = "" ∨ timeline = "" then
    (store, Response.failure 400 "Dados inválidos")
  else if user.userType ≠ Role.freelancer then
    (store, Response.failure 403 "Apenas freelancers podem enviar propostas")
  else
    match store with
    | none => (none, Response.failure 404 "Projeto não encontrado")
    | some project =>
      if project.status ≠ ProjectStatus.open_ then
        (some project, Response.failure 400 "Projeto não está aceitando propostas")
      else if (project.proposals.find? (fun p => p.freelancer == user.id)).isSome then
        (some project, Response.failure 400 "Você já enviou uma proposta para este projeto")
      else
        (some { project with proposals := project.proposals ++
            [{ id := freshId, freelancer := user.id, proposal := proposalText,
               bid := bid, timeline := timeline,
               status := ProposalStatus.pending, createdAt := now }] },
         Response.success 201 "Proposta enviada com sucesso!")

/-- Set the status of the first proposal in the list whose `_id` matches
(`project.proposals.id(proposalId)` returns the first matching subdocument and
the handler mutates it in place; no match means no change). -/
def setStatusAt : List Proposal → Nat → ProposalStatus → List Proposal
  | [], _, _ => []
  | p :: ps, pid, s =>
      if p.id = pid then { p with status := s } :: ps
      else p :: setStatusAt ps pid s

/-- The body of `PUT /api/projects/:id/proposals/:proposalId` (routes/proposals.js)
in the accept case, once the project is found, ownership is checked and the
target proposal `target` is found: the target's status becomes accepted,
`assignedTo` becomes the target's freelancer, the project status becomes
in_progress, and the `forEach` loop rejects every proposal whose `_id` differs
from the target id and whose status is pending. -/
def acceptApply (project : Project) (proposalId : Nat) (target : Proposal) : Project :=
  { project with
      assignedTo := some target.freelancer,
      status := ProjectStatus.in_progress,
      proposals := (setStatusAt project.proposals proposalId ProposalStatus.accepted).map
        (fun p =>
          if p.id ≠ proposalId ∧ p.status = ProposalStatus.pending then
            { p with status := ProposalStatus.rejected }
          else p) }

/-- The body of the same handler in the reject case: only the target
proposal's status becomes rejected. -/
def rejectApply (project : Project) (proposalId : Nat) : Project :=
  { project with proposals := setStatusAt project.proposals proposalId ProposalStatus.rejected }

/-- The request body's `action` field, already past the handler's
`['accept', 'reject'].includes(action)` guard. -/
inductive ProposalAction
  | accept
  | reject
deriving DecidableEq

/-- `PUT /api/projects/:id/proposals/:proposalId` (routes/proposals.js).
In order: `findById`; the owner check (`project.client` vs the caller);
`project.proposals.id(proposalId)`; then the status update — with no check
that the target proposal is still pending — and, for accept, assignment plus
sibling auto-rejection. -/
def updateProposal (store : Option Project) (user : User)
    (proposalId : Nat) (action : ProposalAction) : Option Project × Response :=
  match store with
  | none => (none, Response.failure 404 "Projeto não encontrado")
  | some project =>
    if project.client ≠ user.id then
      (some project, Response.failure 403 "Apenas o cliente dono do projeto pode gerenciar propostas")
    else
      match project.proposals.find? (fun p => p.id == proposalId) with
      | none => (some project, Response.failure 404 "Proposta não encontrada")
      | some target =>
        match action with
        | ProposalAction.accept =>
            (some (acceptApply project proposalId target),
             Response.success 200 "Proposta aceita com sucesso")
        | ProposalAction.reject =>
            (some (rejectApply project proposalId),
             Response.success 200 "Proposta recusada com sucesso")

/-- The accept entry point of the lifecycle (spec name `acceptProposal`):
the PUT handler with action `accept`. -/
def acceptProposal (store : Option Project) (user : User) (proposalId : Nat) :
    Option Project × Response :=
  updateProposal store user proposalId ProposalAction.accept

/-- The reject entry point of the lifecycle (spec name `rejectProposal`):
the PUT handler with action `reject`. -/
def rejectProposal (store : Option Project) (user : User) (proposalId : Nat) :
    Option Project × Response :=
  updateProposal store user proposalId ProposalAction.reject

/-- The state mutation of `PATCH /api/projects/:id/assign` (routes/projects.js)
once the project is found, ownership is checked and the freelancer user
exists: `assignedTo` becomes the request's `freelancerId`, the project status
becomes in_progress, and if `proposals.id(proposalId)` finds a proposal its
status becomes accepted (no sibling rejection, no pending check, no check that
the proposal's freelancer is `freelancerId`). -/
def assignApply (project : Project) (freelancerId : Nat) (proposalId : Nat) : Project :=
  { project with
      assignedTo := some freelancerId,
      status := ProjectStatus.in_progress,
      proposals := setStatusAt project.proposals proposalId ProposalStatus.accepted }

/-- `PATCH /api/projects/:id/assign` (routes/projects.js).  In order:
`findById`; the owner check; `User.findOne` looking for a user with the given
id and userType freelancer; then the mutation and a 200 response carrying the
updated project. -/
def assignProject (store : Option Project) (users : List User) (user : User)
    (freelancerId : Nat) (proposalId : Nat) : Option Project × Response :=
  match store with
  | none => (none, Response.failure 404 "Projeto não encontrado")
  | some project =>
    if project.client ≠ user.id then
      (some project, Response.failure 403 "Apenas o cliente dono do projeto pode atribuí-lo")
    else
      match users.find? (fun u => u.id == freelancerId && u.userType == Role.freelancer) with
      | none => (some project, Response.failure 404 "Freelancer não encontrado")
      | some _ =>
          let project' := assignApply project freelancerId proposalId
          (some project', Response.projectData 200 project')

/-- One lifecycle operation on the aggregate, as invoked through the HTTP
layer: proposal submission, the accept/reject route, or the assign route. -/
inductive LifecycleOp
  | submit (user : User) (proposalText : String) (bid : Nat) (timeline : String)
      (freshId : Nat) (now : Nat)
  | update (user : User) (proposalId : Nat) (action : ProposalAction)
  | assign (users : List User) (user : User) (freelancerId : Nat) (proposalId : Nat)

/-- Apply one lifecycle operation to the stored aggregate. -/
def applyOp (store : Option Project) : LifecycleOp → Option Project × Response
  | LifecycleOp.submit user text bid timeline freshId now =>
      submitProposal store user text bid timeline freshId now
  | LifecycleOp.update user proposalId action =>
      updateProposal store user proposalId action
  | LifecycleOp.assign users user freelancerId proposalId =>
      assignProject store users user freelancerId proposalId

/-- Run a sequence of lifecycle operations, keeping the resulting store of
each call (failures leave the store unchanged by construction). -/
def runOps (store : Option Project) (ops : List LifecycleOp) : Option Project :=
  ops.foldl (fun s op => (applyOp s op).fst) store

/-- The proposal list of the stored aggregate (empty when absent). -/
def proposalsOf : Option Project → List Proposal
  | none => []
  | some project => project.proposals

/-- Number of proposals of the stored aggregate with status accepted. -/
def countAccepted (store : Option Project) : Nat :=
  ((proposalsOf store).filter (fun p => p.status == ProposalStatus.accepted)).length

/-- The `assignedTo` pointer of the stored aggregate (none when absent). -/
def assignedToOf : Option Project → Option Nat
  | none => none
  | some project => project.assignedTo

/-- A freshly created project: owner client 1, status open, no proposals,
no assignee (`projectSchema` defaults, routes/projects.js POST). -/
def freshProject : Project :=
  { client := 1, budgetMin := 1000, budgetMax := 5000,
    status := ProjectStatus.open_, proposals := [], assignedTo := none }

/-- The owning client of `freshProject`. -/
def ownerUser : User := { id := 1, userType := Role.client }

theorem setStatusAt_length (ps : List Proposal) (pid : Nat) (s : ProposalStatus) :
    (setStatusAt ps pid s).length = ps.length := by
  induction ps with
  | nil => rfl
  | cons a ps ih =>
    unfold setStatusAt
    by_cases h : a.id = pid
    · simp [h]
    · simp [h, ih]

theorem setStatusAt_getElem?_ne (ps : List Proposal) (pid : Nat) (s : ProposalStatus)
    (i : Nat) (p : Proposal) (hp : ps[i]? = some p) (hne : p.id ≠ pid) :
    (setStatusAt ps pid s)[i]? = some p := by
  induction ps generalizing i with
  | nil => simp at hp
  | cons a ps ih =>
    unfold setStatusAt
    by_cases h : a.id = pid
    · rw [if_pos h]
      cases i with
      | zero =>
        rw [List.getElem?_cons_zero] at hp
        injection hp with hp
        subst hp
        exact absurd h hne
      | succ n =>
        rw [List.getElem?_cons_succ] at hp ⊢
        exact hp
    · rw [if_neg h]
      cases i with
      | zero =>
        rw [List.getElem?_cons_zero] at hp ⊢
        exact hp
      | succ n =>
        rw [List.getElem?_cons_succ] at hp ⊢
        exact ih n hp

theorem setStatusAt_getElem?_eq (ps : List Proposal) (pid : Nat) (s : ProposalStatus)
    (hnodup : (ps.map (fun p => p.id)).Nodup)
    (i : Nat) (p : Proposal) (hp : ps[i]? = some p) (heq : p.id = pid) :
    (setStatusAt ps pid s)[i]? = some { p with status := s } := by
  induction ps generalizing i with
  | nil => simp at hp
  | cons a ps ih =>
    rw [List.map_cons, List.nodup_cons] at hnodup
    unfold setStatusAt
    by_cases h : a.id = pid
    · rw [if_pos h]
      cases i with
      | zero =>
        rw [List.getElem?_cons_zero] at hp ⊢
        injection hp with hp
        subst hp
        rfl
      | succ n =>
        exfalso
        rw [List.getElem?_cons_succ] at hp
        exact hnodup.1 (List.mem_map.mpr ⟨p, List.getElem?_mem hp, by rw [heq, h]⟩)
    · rw [if_neg h]
      cases i with
      | zero =>
        rw [List.getElem?_cons_zero] at hp ⊢
        injection hp with hp
        subst hp
        exact absurd heq h
      | succ n =>
        rw [List.getElem?_cons_succ] at hp ⊢
        exact ih hnodup.2 n hp

theorem setStatusAt_getElem?_shape (ps : List Proposal) (pid : Nat) (s : ProposalStatus)
    (i : Nat) (p : Proposal) (hp : ps[i]? = some p) :
    ∃ q, (setStatusAt ps pid s)[i]? = some q ∧ q.id = p.id ∧
      (q = p ∨ q = { p with status := s }) := by
  induction ps generalizing i with
  | nil => simp at hp
  | cons a ps ih =>
    unfold setStatusAt
    by_cases h : a.id = pid
    · rw [if_pos h]
      cases i with
      | zero =>
        rw [List.getElem?_cons_zero] at hp
        injection hp with hp
        subst hp
        exact ⟨{ a with status := s }, List.getElem?_cons_zero, rfl, Or.inr rfl⟩
      | succ n =>
        rw [List.getElem?_cons_succ] at hp
        exact ⟨p, by rw [List.getElem?_cons_succ]; exact hp, rfl, Or.inl rfl⟩
    · rw [if_neg h]
      cases i with
      | zero =>
        rw [List.getElem?_cons_zero] at hp
        injection hp with hp
        subst hp
        exact ⟨a, List.getElem?_cons_zero, rfl, Or.inl rfl⟩
      | succ n =>
        rw [List.getElem?_cons_succ] at hp
        obtain ⟨q, hq, hid, hcase⟩ := ih n hp
        exact ⟨q, by rw [List.getElem?_cons_succ]; exact hq, hid, hcase⟩

/-- Claim C1: falsified by the code.  Starting from a fresh open project,
freelancers 5 and 6 submit proposals 1 and 2; the owner accepts proposal 1
(proposal 2 is auto-rejected) and then accepts proposal 2 — the PUT handler
never checks that the target proposal is still pending, so proposal 2 also
becomes accepted and the final state carries two accepted proposals. -/
theorem accept_twice_two_accepted :
    countAccepted
      (runOps (some freshProject)
        [LifecycleOp.submit { id := 5, userType := Role.freelancer } "posso fazer" 1500 "2 semanas" 1 10,
         LifecycleOp.submit { id := 6, userType := Role.freelancer } "tenho experiencia" 2000 "3 semanas" 2 11,
         LifecycleOp.update ownerUser 1 ProposalAction.accept,
         LifecycleOp.update ownerUser 2 ProposalAction.accept]) = 2 := by
  decide

/-- Claim C2: falsified by the code.  Starting from a fresh open project with
no proposals at all, the owner calls the assign route naming freelancer 7 and a
proposal id (99) that matches nothing: the handler still sets `assignedTo` and
flips the status to in_progress, so `assignedTo` is set while no proposal has
status accepted. -/
theorem assign_sets_assignedTo_without_accepted :
    assignedToOf
        (runOps (some freshProject)
          [LifecycleOp.assign [{ id := 7, userType := Role.freelancer }] ownerUser 7 99]) = some 7 ∧
    countAccepted
        (runOps (some freshProject)
          [LifecycleOp.assign [{ id := 7, userType := Role.freelancer }] ownerUser 7 99]) = 0 := by
  decide

/-- Claim C3: falsified by the code.  On a project whose only proposal (id 1,
freelancer 5) is already rejected, the owner's accept call succeeds with the
200 success message and mutates the proposal from rejected to accepted — the
handler has no `pending` precondition, where the claim demands an InvalidState
failure with no mutation. -/
theorem accept_resolved_succeeds_and_mutates :
    (acceptProposal
        (some { freshProject with proposals :=
          [{ id := 1, freelancer := 5, proposal := "posso fazer", bid := 1500,
             timeline := "2 semanas", status := ProposalStatus.rejected, createdAt := 10 }] })
        ownerUser 1).snd = Response.success 200 "Proposta aceita com sucesso" ∧
    countAccepted
      (acceptProposal
        (some { freshProject with proposals :=
          [{ id := 1, freelancer := 5, proposal := "posso fazer", bid := 1500,
             timeline := "2 semanas", status := ProposalStatus.rejected, createdAt := 10 }] })
        ownerUser 1).fst = 1 := by
  decide

/-- Target proposal (id 1, freelancer 5, pending) used by concrete instances. -/
def targetP : Proposal :=
  { id := 1, freelancer := 5, proposal := "posso fazer", bid := 1500,
    timeline := "2 semanas", status := ProposalStatus.pending, createdAt := 10 }

/-- A project of owner 1 holding the pending proposal 1 of freelancer 5, a
pending proposal 2 of freelancer 6 and an already-rejected proposal 3 of
freelancer 7. -/
def threeProposalsPrj : Project :=
  { freshProject with proposals :=
      [targetP,
       { id := 2, freelancer := 6, proposal := "tenho experiencia", bid := 1800,
         timeline := "3 semanas", status := ProposalStatus.pending, createdAt := 11 },
       { id := 3, freelancer := 7, proposal := "sou rapido", bid := 2200,
         timeline := "1 semana", status := ProposalStatus.rejected, createdAt := 12 }] }

/-- Claim C9: a successful reject call (project found, caller is the owning
client, target proposal found) sets the target proposal's status to rejected
and changes nothing else — the project's status, assignedTo, owner and budget
bounds are kept, and every proposal other than the target is kept verbatim, so
the target's freelancer, bid, timeline and createdAt are also kept.  Mongoose
subdocument ids are unique, hence the Nodup hypothesis. -/
theorem reject_only_sets_target_status (project : Project) (user : User) (pid : Nat)
    (target : Proposal)
    (hown : project.client = user.id)
    (hfind : project.proposals.find? (fun p => p.id == pid) = some target)
    (hnodup : (project.proposals.map (fun p => p.id)).Nodup) :
    ∃ project',
      rejectProposal (some project) user pid =
        (some project', Response.success 200 "Proposta recusada com sucesso") ∧
      project'.status = project.status ∧
      project'.assignedTo = project.assignedTo ∧
      project'.client = project.client ∧
      project'.budgetMin = project.budgetMin ∧
      project'.budgetMax = project.budgetMax ∧
      project'.proposals.length = project.proposals.length ∧
      (∀ (i : Nat) (p : Proposal), project.proposals[i]? = some p →
        (p.id ≠ pid → project'.proposals[i]? = some p) ∧
        (p.id = pid → project'.proposals[i]? =
            some { p with status := ProposalStatus.rejected })) := by
  refine ⟨rejectApply project pid, ?_, rfl, rfl, rfl, rfl, rfl, ?_, ?_⟩
  · simp only [rejectProposal, updateProposal]
    rw [if_neg (fun hc => hc hown), hfind]
  · simp only [rejectApply]
    exact setStatusAt_length project.proposals pid ProposalStatus.rejected
  · intro i p hp
    constructor
    · intro hne
      simp only [rejectApply]
      exact setStatusAt_getElem?_ne project.proposals pid ProposalStatus.rejected i p hp hne
    · intro heq
      simp only [rejectApply]
      exact setStatusAt_getElem?_eq project.proposals pid ProposalStatus.rejected hnodup i p hp heq

/-- Witness for claim C9: the reject theorem applied to the concrete
three-proposal project, target proposal 1. -/
theorem reject_only_sets_target_status_witness :
    (threeProposalsPrj.client = ownerUser.id ∧
     threeProposalsPrj.proposals.find? (fun p => p.id == 1) = some targetP ∧
     (threeProposalsPrj.proposals.map (fun p => p.id)).Nodup) ∧
    (∃ project',
      rejectProposal (some threeProposalsPrj) ownerUser 1 =
        (some project', Response.success 200 "Proposta recusada com sucesso") ∧
      project'.status = threeProposalsPrj.status ∧
      project'.assignedTo = threeProposalsPrj.assignedTo ∧
      project'.client = threeProposalsPrj.client ∧
      project'.budgetMin = threeProposalsPrj.budgetMin ∧
      project'.budgetMax = threeProposalsPrj.budgetMax ∧
      project'.proposals.length = threeProposalsPrj.proposals.length ∧
      (∀ (i : Nat) (p : Proposal), threeProposalsPrj.proposals[i]? = some p →
        (p.id ≠ 1 → project'.proposals[i]? = some p) ∧
        (p.id = 1 → project'.proposals[i]? =
            some { p with status := ProposalStatus.rejected }))) :=
  ⟨⟨by decide, by decide, by decide⟩,
   reject_only_sets_target_status threeProposalsPrj ownerUser 1 targetP
     (by decide) (by decide) (by decide)⟩

/-- Claim C4: after a successful accept (project found, caller is the owning
client, target proposal found), every proposal other than the target that was
pending immediately before is rejected afterwards, and every proposal other
than the target that was already rejected is kept verbatim (in particular it
stays rejected); the proposal count is unchanged. -/
theorem accept_rejects_pending_siblings (project : Project) (user : User) (pid : Nat)
    (target : Proposal)
    (hown : project.client = user.id)
    (hfind : project.proposals.find? (fun p => p.id == pid) = some target) :
    ∃ project',
      acceptProposal (some project) user pid =
        (some project', Response.success 200 "Proposta aceita com sucesso") ∧
      project'.proposals.length = project.proposals.length ∧
      (∀ (i : Nat) (p : Proposal), project.proposals[i]? = some p → p.id ≠ pid →
        (p.status = ProposalStatus.pending →
          project'.proposals[i]? = some { p with status := ProposalStatus.rejected }) ∧
        (p.status = ProposalStatus.rejected →
          project'.proposals[i]? = some p)) := by
  refine ⟨acceptApply project pid target, ?_, ?_, ?_⟩
  · simp only [acceptProposal, updateProposal]
    rw [if_neg (fun hc => hc hown), hfind]
  · simp only [acceptApply]
    rw [List.length_map]
    exact setStatusAt_length project.proposals pid ProposalStatus.accepted
  · intro i p hp hne
    have h1 := setStatusAt_getElem?_ne project.proposals pid ProposalStatus.accepted i p hp hne
    constructor
    · intro hpend
      simp only [acceptApply]
      rw [List.getElem?_map, h1, Option.map_some']
      show some (if p.id ≠ pid ∧ p.status = ProposalStatus.pending
          then { p with status := ProposalStatus.rejected } else p) =
        some { p with status := ProposalStatus.rejected }
      rw [if_pos ⟨hne, hpend⟩]
    · intro hrej
      simp only [acceptApply]
      rw [List.getElem?_map, h1, Option.map_some']
      show some (if p.id ≠ pid ∧ p.status = ProposalStatus.pending
          then { p with status := ProposalStatus.rejected } else p) = some p
      have hc : ¬(p.id ≠ pid ∧ p.status = ProposalStatus.pending) := by
        rintro ⟨-, hpend⟩
        rw [hrej] at hpend
        exact ProposalStatus.noConfusion hpend
      rw [if_neg hc]

/-- Witness for claim C4: the accept theorem applied to the concrete
three-proposal project, target proposal 1. -/
theorem accept_rejects_pending_siblings_witness :
    (threeProposalsPrj.client = ownerUser.id ∧
     threeProposalsPrj.proposals.find? (fun p => p.id == 1) = some targetP) ∧
    (∃ project',
      acceptProposal (some threeProposalsPrj) ownerUser 1 =
        (some project', Response.success 200 "Proposta aceita com sucesso") ∧
      project'.proposals.length = threeProposalsPrj.proposals.length ∧
      (∀ (i : Nat) (p : Proposal), threeProposalsPrj.proposals[i]? = some p → p.id ≠ 1 →
        (p.status = ProposalStatus.pending →
          project'.proposals[i]? = some { p with status := ProposalStatus.rejected }) ∧
        (p.status = ProposalStatus.rejected →
          project'.proposals[i]? = some p))) :=
  ⟨⟨by decide, by decide⟩,
   accept_rejects_pending_siblings threeProposalsPrj ownerUser 1 targetP
     (by decide) (by decide)⟩

/-- Claim C5, counterexample to the `created Proposal is returned` part: two
successful submit calls creating different proposals (bids 1500 and 9999, and
different texts and timelines) produce one and the same response, the constant
201 success message — the response carries nothing of the created proposal. -/
theorem submit_response_constant_message :
    (submitProposal (some freshProject) { id := 5, userType := Role.freelancer }
        "posso fazer" 1500 "2 semanas" 1 10).snd =
      Response.success 201 "Proposta enviada com sucesso!" ∧
    (submitProposal (some freshProject) { id := 5, userType := Role.freelancer }
        "posso fazer" 1500 "2 semanas" 1 10).snd =
      (submitProposal (some freshProject) { id := 5, userType := Role.freelancer }
        "outro texto" 9999 "5 semanas" 1 10).snd := by
  decide

/-- Claim C5 as amended: a successful submit (valid body, freelancer caller,
project found, open, no prior proposal from this freelancer) appends exactly
one new proposal at the end of the project's sequence — pending, createdAt =
now, owned by the calling freelancer — leaves every existing proposal
unchanged, and returns the constant success message rather than the created
proposal. -/
theorem submit_appends_single_pending (project : Project) (user : User)
    (text : String) (bid : Nat) (timeline : String) (freshId : Nat) (now : Nat)
    (htext : text ≠ "") (htl : timeline ≠ "")
    (hrole : user.userType = Role.freelancer)
    (hopen : project.status = ProjectStatus.open_)
    (hdup : project.proposals.find? (fun p => p.freelancer == user.id) = none) :
    ∃ newP : Proposal,
      submitProposal (some project) user text bid timeline freshId now =
        (some { project with proposals := project.proposals ++ [newP] },
         Response.success 201 "Proposta enviada com sucesso!") ∧
      newP.status = ProposalStatus.pending ∧
      newP.createdAt = now ∧
      newP.freelancer = user.id := by
  refine ⟨{ id := freshId, freelancer := user.id, proposal := text, bid := bid,
            timeline := timeline, status := ProposalStatus.pending, createdAt := now },
          ?_, rfl, rfl, rfl⟩
  unfold submitProposal
  rw [if_neg (fun h => h.elim htext htl), if_neg (fun h => h hrole)]
  simp only []
  rw [if_neg (fun h => h hopen), hdup]
  rfl

/-- Witness for the amended claim C5 at the fresh project, freelancer 5. -/
theorem submit_appends_single_pending_witness :
    (("posso fazer" : String) ≠ "" ∧ ("2 semanas" : String) ≠ "" ∧
     ({ id := 5, userType := Role.freelancer } : User).userType = Role.freelancer ∧
     freshProject.status = ProjectStatus.open_ ∧
     freshProject.proposals.find?
       (fun p => p.freelancer == ({ id := 5, userType := Role.freelancer } : User).id) = none) ∧
    (∃ newP : Proposal,
      submitProposal (some freshProject) { id := 5, userType := Role.freelancer }
          "posso fazer" 1500 "2 semanas" 1 10 =
        (some { freshProject with proposals := freshProject.proposals ++ [newP] },
         Response.success 201 "Proposta enviada com sucesso!") ∧
      newP.status = ProposalStatus.pending ∧
      newP.createdAt = 10 ∧
      newP.freelancer = ({ id := 5, userType := Role.freelancer } : User).id) :=
  ⟨⟨by decide, by decide, rfl, rfl, rfl⟩,
   submit_appends_single_pending freshProject { id := 5, userType := Role.freelancer }
     "posso fazer" 1500 "2 semanas" 1 10 (by decide) (by decide) rfl rfl rfl⟩

/-- Claim C6, counterexample: on an in_progress project where freelancer 5
already has a (rejected) proposal, a further submit by freelancer 5 fails with
the InvalidState response — `not accepting proposals` — and not with Conflict,
because the handler checks the project status before the duplicate check.
This state is reachable: freelancers 5 and 6 submit while the project is open,
then the owner accepts proposal 2, which auto-rejects proposal 1 and moves the
project to in_progress. -/
theorem submit_duplicate_closed_not_conflict :
    ((({ freshProject with
          status := ProjectStatus.in_progress,
          assignedTo := some 6,
          proposals :=
            [{ targetP with status := ProposalStatus.rejected },
             { id := 2, freelancer := 6, proposal := "tenho experiencia", bid := 1800,
               timeline := "3 semanas", status := ProposalStatus.accepted, createdAt := 11 }] } :
        Project).proposals.find? (fun p => p.freelancer == 5)).isSome = true) ∧
    errorKind
      (submitProposal
        (some { freshProject with
          status := ProjectStatus.in_progress,
          assignedTo := some 6,
          proposals :=
            [{ targetP with status := ProposalStatus.rejected },
             { id := 2, freelancer := 6, proposal := "tenho experiencia", bid := 1800,
               timeline := "3 semanas", status := ProposalStatus.accepted, createdAt := 11 }] })
        { id := 5, userType := Role.freelancer } "de novo" 1600 "2 semanas" 9 20).snd =
      some ErrorKind.invalidState ∧
    errorKind
      (submitProposal
        (some { freshProject with
          status := ProjectStatus.in_progress,
          assignedTo := some 6,
          proposals :=
            [{ targetP with status := ProposalStatus.rejected },
             { id := 2, freelancer := 6, proposal := "tenho experiencia", bid := 1800,
               timeline := "3 semanas", status := ProposalStatus.accepted, createdAt := 11 }] })
        { id := 5, userType := Role.freelancer } "de novo" 1600 "2 semanas" 9 20).snd ≠
      some ErrorKind.conflict := by
  decide

/-- Claim C6 as amended: on an open project, when the acting freelancer already
has exactly one proposal on it, a further submit with a valid body fails with
Conflict and leaves the stored aggregate unchanged, so the project still
contains exactly one proposal from that freelancer. -/
theorem submit_duplicate_conflict (project : Project) (user : User)
    (text : String) (bid : Nat) (timeline : String) (freshId : Nat) (now : Nat)
    (htext : text ≠ "") (htl : timeline ≠ "")
    (hrole : user.userType = Role.freelancer)
    (hopen : project.status = ProjectStatus.open_)
    (hone : (project.proposals.filter (fun p => p.freelancer == user.id)).length = 1) :
    submitProposal (some project) user text bid timeline freshId now =
      (some project, Response.failure 400 "Você já enviou uma proposta para este projeto") ∧
    errorKind (submitProposal (some project) user text bid timeline freshId now).snd =
      some ErrorKind.conflict ∧
    ((proposalsOf (submitProposal (some project) user text bid timeline freshId now).fst).filter
        (fun p => p.freelancer == user.id)).length = 1 := by
  have hsome : (project.proposals.find? (fun p => p.freelancer == user.id)).isSome = true := by
    rw [List.find?_isSome]
    have hne : project.proposals.filter (fun p => p.freelancer == user.id) ≠ [] := by
      intro h
      rw [h] at hone
      simp at hone
    obtain ⟨x, hx⟩ := List.exists_mem_of_ne_nil _ hne
    rw [List.mem_filter] at hx
    exact ⟨x, hx.1, hx.2⟩
  have heq : submitProposal (some project) user text bid timeline freshId now =
      (some project, Response.failure 400 "Você já enviou uma proposta para este projeto") := by
    unfold submitProposal
    rw [if_neg (fun h => h.elim htext htl), if_neg (fun h => h hrole)]
    simp only []
    rw [if_neg (fun h => h hopen)]
    simp only [hsome, if_true]
  refine ⟨heq, ?_, ?_⟩
  · rw [heq]
    rfl
  · rw [heq]
    exact hone

/-- Witness for the amended claim C6 at the open three-proposal project, where
freelancer 5 already has exactly one proposal. -/
theorem submit_duplicate_conflict_witness :
    (("de novo" : String) ≠ "" ∧ ("2 semanas" : String) ≠ "" ∧
     ({ id := 5, userType := Role.freelancer } : User).userType = Role.freelancer ∧
     threeProposalsPrj.status = ProjectStatus.open_ ∧
     (threeProposalsPrj.proposals.filter
       (fun p => p.freelancer == ({ id := 5, userType := Role.freelancer } : User).id)).length = 1) ∧
    (submitProposal (some threeProposalsPrj) { id := 5, userType := Role.freelancer }
        "de novo" 1600 "2 semanas" 9 20 =
      (some threeProposalsPrj,
       Response.failure 400 "Você já enviou uma proposta para este projeto") ∧
    errorKind (submitProposal (some threeProposalsPrj) { id := 5, userType := Role.freelancer }
        "de novo" 1600 "2 semanas" 9 20).snd = some ErrorKind.conflict ∧
    ((proposalsOf (submitProposal (some threeProposalsPrj)
          { id := 5, userType := Role.freelancer } "de novo" 1600 "2 semanas" 9 20).fst).filter
        (fun p => p.freelancer == ({ id := 5, userType := Role.freelancer } : User).id)).length = 1) :=
  ⟨⟨by decide, by decide, rfl, rfl, by decide⟩,
   submit_duplicate_conflict threeProposalsPrj { id := 5, userType := Role.freelancer }
     "de novo" 1600 "2 semanas" 9 20 (by decide) (by decide) rfl rfl (by decide)⟩

/-- Claim C7: a submit call with a valid body by a freelancer on an existing
project whose status is in_progress, completed or cancelled fails with the
InvalidState response, and the stored aggregate — in particular the proposal
sequence — is unchanged: no proposal is appended. -/
theorem submit_closed_invalid_state (project : Project) (user : User)
    (text : String) (bid : Nat) (timeline : String) (freshId : Nat) (now : Nat)
    (htext : text ≠ "") (htl : timeline ≠ "")
    (hrole : user.userType = Role.freelancer)
    (hstatus : project.status = ProjectStatus.in_progress ∨
      project.status = ProjectStatus.completed ∨
      project.status = ProjectStatus.cancelled) :
    submitProposal (some project) user text bid timeline freshId now =
      (some project, Response.failure 400 "Projeto não está aceitando propostas") ∧
    errorKind (submitProposal (some project) user text bid timeline freshId now).snd =
      some ErrorKind.invalidState := by
  have hne : project.status ≠ ProjectStatus.open_ := by
    rcases hstatus with h | h | h <;> rw [h] <;> intro hc <;> exact ProjectStatus.noConfusion hc
  have heq : submitProposal (some project) user text bid timeline freshId now =
      (some project, Response.failure 400 "Projeto não está aceitando propostas") := by
    unfold submitProposal
    rw [if_neg (fun h => h.elim htext htl), if_neg (fun h => h hrole)]
    simp only []
    rw [if_pos hne]
  refine ⟨heq, ?_⟩
  rw [heq]
  rfl

/-- Witness for claim C7 at an in_progress project. -/
theorem submit_closed_invalid_state_witness :
    (("posso fazer" : String) ≠ "" ∧ ("2 semanas" : String) ≠ "" ∧
     ({ id := 5, userType := Role.freelancer } : User).userType = Role.freelancer ∧
     (({ freshProject with status := ProjectStatus.in_progress } : Project).status =
        ProjectStatus.in_progress ∨
      ({ freshProject with status := ProjectStatus.in_progress } : Project).status =
        ProjectStatus.completed ∨
      ({ freshProject with status := ProjectStatus.in_progress } : Project).status =
        ProjectStatus.cancelled)) ∧
    (submitProposal (some { freshProject with status := ProjectStatus.in_progress })
        { id := 5, userType := Role.freelancer } "posso fazer" 1500 "2 semanas" 1 10 =
      (some { freshProject with status := ProjectStatus.in_progress },
       Response.failure 400 "Projeto não está aceitando propostas") ∧
    errorKind (submitProposal (some { freshProject with status := ProjectStatus.in_progress })
        { id := 5, userType := Role.freelancer } "posso fazer" 1500 "2 semanas" 1 10).snd =
      some ErrorKind.invalidState) :=
  ⟨⟨by decide, by decide, rfl, Or.inl rfl⟩,
   submit_closed_invalid_state { freshProject with status := ProjectStatus.in_progress }
     { id := 5, userType := Role.freelancer } "posso fazer" 1500 "2 semanas" 1 10
     (by decide) (by decide) rfl (Or.inl rfl)⟩

/-- Claim C10: the submit handler checks the caller's role before `findById`:
for any stored aggregate at all — the project may be absent or in any status —
a call with a well-formed body by a non-freelancer yields the Forbidden
response (neither NotFound nor InvalidState) and changes nothing. -/
theorem submit_role_before_lookup (store : Option Project) (user : User)
    (text : String) (bid : Nat) (timeline : String) (freshId : Nat) (now : Nat)
    (htext : text ≠ "") (htl : timeline ≠ "")
    (hrole : user.userType ≠ Role.freelancer) :
    submitProposal store user text bid timeline freshId now =
      (store, Response.failure 403 "Apenas freelancers podem enviar propostas") ∧
    errorKind (submitProposal store user text bid timeline freshId now).snd =
      some ErrorKind.forbidden ∧
    errorKind (submitProposal store user text bid timeline freshId now).snd ≠
      some ErrorKind.notFound ∧
    errorKind (submitProposal store user text bid timeline freshId now).snd ≠
      some ErrorKind.invalidState := by
  have heq : submitProposal store user text bid timeline freshId now =
      (store, Response.failure 403 "Apenas freelancers podem enviar propostas") := by
    unfold submitProposal
    rw [if_neg (fun h => h.elim htext htl), if_pos hrole]
  refine ⟨heq, ?_, ?_, ?_⟩
  · rw [heq]
    rfl
  · rw [heq]
    intro hc
    exact ErrorKind.noConfusion (Option.some.inj hc)
  · rw [heq]
    intro hc
    exact ErrorKind.noConfusion (Option.some.inj hc)

/-- Witness for claim C10 with a client caller and an absent project: the
result is Forbidden, not NotFound, although the project does not exist. -/
theorem submit_role_before_lookup_witness :
    (("quero propor" : String) ≠ "" ∧ ("4 semanas" : String) ≠ "" ∧
     ({ id := 2, userType := Role.client } : User).userType ≠ Role.freelancer) ∧
    (submitProposal none { id := 2, userType := Role.client }
        "quero propor" 3000 "4 semanas" 1 10 =
      (none, Response.failure 403 "Apenas freelancers podem enviar propostas") ∧
    errorKind (submitProposal none { id := 2, userType := Role.client }
        "quero propor" 3000 "4 semanas" 1 10).snd = some ErrorKind.forbidden ∧
    errorKind (submitProposal none { id := 2, userType := Role.client }
        "quero propor" 3000 "4 semanas" 1 10).snd ≠ some ErrorKind.notFound ∧
    errorKind (submitProposal none { id := 2, userType := Role.client }
        "quero propor" 3000 "4 semanas" 1 10).snd ≠ some ErrorKind.invalidState) :=
  ⟨⟨by decide, by decide, by decide⟩,
   submit_role_before_lookup none { id := 2, userType := Role.client }
     "quero propor" 3000 "4 semanas" 1 10 (by decide) (by decide) (by decide)⟩

theorem submitProposal_proposals_shape (store : Option Project) (user : User)
    (text : String) (bid : Nat) (timeline : String) (freshId : Nat) (now : Nat) :
    proposalsOf (submitProposal store user text bid timeline freshId now).fst =
      proposalsOf store ∨
    ∃ newP, proposalsOf (submitProposal store user text bid timeline freshId now).fst =
      proposalsOf store ++ [newP] := by
  unfold submitProposal
  by_cases h1 : text = "" ∨ timeline = ""
  · rw [if_pos h1]
    exact Or.inl rfl
  · rw [if_neg h1]
    by_cases h2 : user.userType ≠ Role.freelancer
    · rw [if_pos h2]
      exact Or.inl rfl
    · rw [if_neg h2]
      cases store with
      | none => exact Or.inl rfl
      | some project =>
        simp only []
        by_cases h3 : project.status ≠ ProjectStatus.open_
        · rw [if_pos h3]
          exact Or.inl rfl
        · rw [if_neg h3]
          by_cases h4 :
              (project.proposals.find? (fun p => p.freelancer == user.id)).isSome = true
          · rw [if_pos h4]
            exact Or.inl rfl
          · rw [if_neg h4]
            exact Or.inr ⟨_, rfl⟩

theorem updateProposal_fst_cases (store : Option Project) (user : User)
    (pid : Nat) (action : ProposalAction) :
    (updateProposal store user pid action).fst = store ∨
    ∃ project target, store = some project ∧
      ((updateProposal store user pid action).fst = some (acceptApply project pid target) ∨
       (updateProposal store user pid action).fst = some (rejectApply project pid)) := by
  unfold updateProposal
  cases store with
  | none => exact Or.inl rfl
  | some project =>
    simp only []
    by_cases h1 : project.client ≠ user.id
    · rw [if_pos h1]
      exact Or.inl rfl
    · rw [if_neg h1]
      cases hfind : project.proposals.find? (fun p => p.id == pid) with
      | none => exact Or.inl rfl
      | some target =>
        cases action with
        | accept => exact Or.inr ⟨project, target, rfl, Or.inl rfl⟩
        | reject => exact Or.inr ⟨project, target, rfl, Or.inr rfl⟩

theorem assignProject_fst_cases (store : Option Project) (users : List User)
    (user : User) (freelancerId : Nat) (pid : Nat) :
    (assignProject store users user freelancerId pid).fst = store ∨
    ∃ project, store = some project ∧
      (assignProject store users user freelancerId pid).fst =
        some (assignApply project freelancerId pid) := by
  unfold assignProject
  cases store with
  | none => exact Or.inl rfl
  | some project =>
    simp only []
    by_cases h1 : project.client ≠ user.id
    · rw [if_pos h1]
      exact Or.inl rfl
    · rw [if_neg h1]
      cases hfind :
          users.find? (fun u => u.id == freelancerId && u.userType == Role.freelancer) with
      | none => exact Or.inl rfl
      | some f => exact Or.inr ⟨project, rfl, rfl⟩

theorem siblingReject_keeps_nonpending (pid : Nat) (q : Proposal)
    (h : q.status ≠ ProposalStatus.pending) :
    (if q.id ≠ pid ∧ q.status = ProposalStatus.pending
      then { q with status := ProposalStatus.rejected } else q) = q := by
  rw [if_neg (fun hc => h hc.2)]

theorem setStatusAt_keeps_nonpending (ps : List Proposal) (pid : Nat)
    (s : ProposalStatus) (hs : s ≠ ProposalStatus.pending)
    (i : Nat) (p : Proposal) (hp : ps[i]? = some p)
    (hnp : p.status ≠ ProposalStatus.pending) :
    ∃ q, (setStatusAt ps pid s)[i]? = some q ∧
      q.id = p.id ∧ q.status ≠ ProposalStatus.pending := by
  obtain ⟨q, hq, hid, hcase⟩ := setStatusAt_getElem?_shape ps pid s i p hp
  refine ⟨q, hq, hid, ?_⟩
  rcases hcase with h | h
  · rw [h]
    exact hnp
  · rw [h]
    exact hs

theorem applyOp_keeps_nonpending (st : Option Project) (op : LifecycleOp)
    (i : Nat) (p : Proposal)
    (hp : (proposalsOf st)[i]? = some p)
    (hnp : p.status ≠ ProposalStatus.pending) :
    ∃ q, (proposalsOf (applyOp st op).fst)[i]? = some q ∧
      q.id = p.id ∧ q.status ≠ ProposalStatus.pending := by
  cases op with
  | submit user text bid timeline freshId now =>
    simp only [applyOp]
    rcases submitProposal_proposals_shape st user text bid timeline freshId now with
      h | ⟨newP, h⟩
    · rw [h]
      exact ⟨p, hp, rfl, hnp⟩
    · rw [h, List.getElem?_append]
      obtain ⟨hlt, -⟩ := List.getElem?_eq_some.mp hp
      rw [if_pos hlt]
      exact ⟨p, hp, rfl, hnp⟩
  | update user pid action =>
    simp only [applyOp]
    rcases updateProposal_fst_cases st user pid action with
      h | ⟨project, target, hstore, h | h⟩
    · rw [h]
      exact ⟨p, hp, rfl, hnp⟩
    · rw [h]
      subst hstore
      obtain ⟨q, hq, hid, hqs⟩ :=
        setStatusAt_keeps_nonpending project.proposals pid ProposalStatus.accepted
          (fun hc => ProposalStatus.noConfusion hc) i p hp hnp
      refine ⟨q, ?_, hid, hqs⟩
      show ((setStatusAt project.proposals pid ProposalStatus.accepted).map _)[i]? = some q
      rw [List.getElem?_map, hq, Option.map_some', siblingReject_keeps_nonpending pid q hqs]
    · rw [h]
      subst hstore
      exact setStatusAt_keeps_nonpending project.proposals pid ProposalStatus.rejected
        (fun hc => ProposalStatus.noConfusion hc) i p hp hnp
  | assign users user freelancerId pid =>
    simp only [applyOp]
    rcases assignProject_fst_cases st users user freelancerId pid with
      h | ⟨project, hstore, h⟩
    · rw [h]
      exact ⟨p, hp, rfl, hnp⟩
    · rw [h]
      subst hstore
      exact setStatusAt_keeps_nonpending project.proposals pid ProposalStatus.accepted
        (fun hc => ProposalStatus.noConfusion hc) i p hp hnp

/-- Claim C8: once a proposal's status has left pending (the proposal at
position i has status accepted or rejected), no sequence of further lifecycle
operations — submissions, accept/reject calls, assign calls — ever brings that
proposal back to pending: it is still there afterwards, with the same id and a
status other than pending. -/
theorem resolved_never_back_to_pending (st : Option Project) (ops : List LifecycleOp)
    (i : Nat) (p : Proposal)
    (hp : (proposalsOf st)[i]? = some p)
    (hnp : p.status ≠ ProposalStatus.pending) :
    ∃ q, (proposalsOf (runOps st ops))[i]? = some q ∧
      q.id = p.id ∧ q.status ≠ ProposalStatus.pending := by
  induction ops generalizing st p with
  | nil => exact ⟨p, hp, rfl, hnp⟩
  | cons op ops ih =>
    obtain ⟨q, hq, hid, hqs⟩ := applyOp_keeps_nonpending st op i p hp hnp
    obtain ⟨r, hr, hrid, hrs⟩ := ih ((applyOp st op).fst) q hq hqs
    exact ⟨r, hr, hrid.trans hid, hrs⟩

/-- Witness for claim C8: the rejected proposal 3 of the three-proposal
project stays non-pending across a subsequent accept of proposal 1, a further
submission and an assign call. -/
theorem resolved_never_back_to_pending_witness :
    ((proposalsOf (some threeProposalsPrj))[2]? =
      some { id := 3, freelancer := 7, proposal := "sou rapido", bid := 2200,
             timeline := "1 semana", status := ProposalStatus.rejected, createdAt := 12 } ∧
     ({ id := 3, freelancer := 7, proposal := "sou rapido", bid := 2200,
        timeline := "1 semana", status := ProposalStatus.rejected,
        createdAt := 12 } : Proposal).status ≠ ProposalStatus.pending) ∧
    (∃ q, (proposalsOf (runOps (some threeProposalsPrj)
        [LifecycleOp.update ownerUser 1 ProposalAction.accept,
         LifecycleOp.submit { id := 8, userType := Role.freelancer } "cheguei" 2500 "6 semanas" 4 30,
         LifecycleOp.assign [{ id := 5, userType := Role.freelancer }] ownerUser 5 1]))[2]? =
        some q ∧
      q.id = ({ id := 3, freelancer := 7, proposal := "sou rapido", bid := 2200,
                timeline := "1 semana", status := ProposalStatus.rejected,
                createdAt := 12 } : Proposal).id ∧
      q.status ≠ ProposalStatus.pending) :=
  ⟨⟨by decide, by decide⟩,
   resolved_never_back_to_pending (some threeProposalsPrj)
     [LifecycleOp.update ownerUser 1 ProposalAction.accept,
      LifecycleOp.submit { id := 8, userType := Role.freelancer } "cheguei" 2500 "6 semanas" 4 30,
      LifecycleOp.assign [{ id := 5, userType := Role.freelancer }] ownerUser 5 1]
     2 { id := 3, freelancer := 7, proposal := "sou rapido", bid := 2200,
         timeline := "1 semana", status := ProposalStatus.rejected, createdAt := 12 }
     (by decide) (by decide)⟩
